import Mathlib

/-!
Verification development for the truth-bias statistical scripts.

The repository consists of six small Python scripts computing classical
inferential statistics.  We give a shallow embedding: numeric data
(proportions, percentage scores, p-values) are modelled as exact rationals,
and real numbers enter only where the code applies transcendental library
functions (square roots, arcsines, normal and chi-squared distribution
functions).  Library routines from scipy, numpy and statsmodels that the
scripts call are modelled by definitions faithful to their documented
semantics, noted in the corresponding doc comments.
-/

/-- Standard normal cumulative distribution function, modelling
scipy.stats.norm.cdf: the measure of the interval up to x under the
Gaussian with mean 0 and variance 1. -/
noncomputable def normCdf (x : ℝ) : ℝ :=
  (ProbabilityTheory.gaussianReal 0 1 (Set.Iic x)).toReal

/-- Survival function of the chi-squared distribution with one degree of
freedom, modelling scipy.stats.chi2.sf applied with dof 1 (as used by
scipy.stats.chi2_contingency on a 2x2 table).  The chi-squared
distribution with one degree of freedom is the Gamma distribution with
shape 1/2 and rate 1/2. -/
noncomputable def chi2Sf (x : ℝ) : ℝ :=
  1 - (ProbabilityTheory.gammaMeasure (1/2) (1/2) (Set.Iic x)).toReal

/-- Sign of a rational, modelling numpy.sign. -/
def ratSign (d : ℚ) : ℚ :=
  if 0 < d then 1 else if d < 0 then -1 else 0

/-- Yates continuity adjustment of one observed cell toward its expected
value, modelling the correction step of scipy.stats.chi2_contingency when
correction=True and dof == 1: the observed value moves toward the expected
value by min(0.5, abs(expected - observed)). -/
def yatesAdjust (o e : ℚ) : ℚ :=
  o + min (1/2) |e - o| * ratSign (e - o)

/-- One cell contribution (observed - expected)^2 / expected of the Pearson
chi-squared statistic, with the Yates adjustment applied to the observed
value when corr is true. -/
def cellTerm (corr : Bool) (o e : ℚ) : ℚ :=
  ((if corr then yatesAdjust o e else o) - e) ^ 2 / e

/-- Pearson chi-squared statistic of the 2x2 contingency table
[[a, b], [c, d]], modelling the statistic returned by
scipy.stats.chi2_contingency: expected cell values are products of the row
and column sums divided by the grand total, and when corr is true the
Yates continuity correction is applied (a 2x2 table has dof 1). -/
def chi2Stat2x2 (corr : Bool) (a b c d : ℚ) : ℚ :=
  cellTerm corr a ((a + b) * (a + c) / (a + b + c + d)) +
  cellTerm corr b ((a + b) * (b + d) / (a + b + c + d)) +
  cellTerm corr c ((c + d) * (a + c) / (a + b + c + d)) +
  cellTerm corr d ((c + d) * (b + d) / (a + b + c + d))

/-- Swapping the two rows of a 2x2 table leaves the chi-squared statistic
unchanged, with or without the Yates correction. -/
theorem chi2Stat2x2_swap (corr : Bool) (a b c d : ℚ) :
    chi2Stat2x2 corr c d a b = chi2Stat2x2 corr a b c d := by
  unfold chi2Stat2x2
  have e1 : (c + d) * (c + a) / (c + d + a + b) =
      (c + d) * (a + c) / (a + b + c + d) := by ring
  have e2 : (c + d) * (d + b) / (c + d + a + b) =
      (c + d) * (b + d) / (a + b + c + d) := by ring
  have e3 : (a + b) * (c + a) / (c + d + a + b) =
      (a + b) * (a + c) / (a + b + c + d) := by ring
  have e4 : (a + b) * (d + b) / (c + d + a + b) =
      (a + b) * (b + d) / (a + b + c + d) := by ring
  rw [e1, e2, e3, e4]
  ring

/-- Round a rational to the nearest integer, ties to even, modelling the
Python built-in round on float values. -/
def roundHalfEven (q : ℚ) : ℤ :=
  if q - ⌊q⌋ < 1/2 then ⌊q⌋
  else if (1 : ℚ)/2 < q - ⌊q⌋ then ⌊q⌋ + 1
  else if ⌊q⌋ % 2 = 0 then ⌊q⌋ else ⌊q⌋ + 1

/-- The dictionary of statistics returned by analyze_proportion_comparison
(all three copies return a dictionary with these keys). -/
structure PropResult where
  study : String
  group1_prop : ℝ
  group2_prop : ℝ
  difference : ℝ
  z_statistic : ℝ
  p_value_z : ℝ
  z_ci_lower : ℝ
  z_ci_upper : ℝ
  cohens_h : ℝ
  effect_size : String
  chi_square : ℝ
  p_value_chi2 : ℝ

open Classical in
/-- Effect-size label of new_analysis.py (lines 42-50): an if/elif chain on
the absolute value of Cohen h. -/
noncomputable def NewAnalysis.effectSizeLabel (abs_h : ℝ) : String :=
  if abs_h < 0.2 then "Negligible"
  else if abs_h < 0.5 then "Small"
  else if abs_h < 0.8 then "Medium"
  else "Large"

/-- The threshold list effect_size_thresholds of updated_analysis.py
line 43 (also proportion_analysis.py line 32).  The entry none models the
float inf bound of the last pair. -/
def effect_size_thresholds : List (Option ℚ × String) :=
  [(some 0.2, "Negligible"), (some 0.5, "Small"), (some 0.8, "Medium"),
   (none, "Large")]

open Classical in
/-- First description in the threshold list whose threshold exceeds abs_h,
modelling the generator expression inside next(...) at
updated_analysis.py line 45: a none threshold models float inf, which
every finite abs_h is smaller than. -/
noncomputable def nextMatch (abs_h : ℝ) :
    List (Option ℚ × String) → Option String
  | [] => none
  | (t, d) :: rest =>
      if (match t with | none => True | some q => abs_h < (q : ℝ)) then
        some d
      else nextMatch abs_h rest

/-- Effect-size label of updated_analysis.py (lines 43-45) and
proportion_analysis.py (lines 32-34): next over the threshold list with
default value Large. -/
noncomputable def UpdatedAnalysis.effectSizeLabel (abs_h : ℝ) : String :=
  (nextMatch abs_h effect_size_thresholds).getD ("Large")

/-- The two effect-size computations agree for every abs_h. -/
theorem effectSizeLabel_eq (abs_h : ℝ) :
    UpdatedAnalysis.effectSizeLabel abs_h = NewAnalysis.effectSizeLabel abs_h := by
  unfold UpdatedAnalysis.effectSizeLabel NewAnalysis.effectSizeLabel
  simp only [effect_size_thresholds, nextMatch]
  have c2 : ((0.2 : ℚ) : ℝ) = (0.2 : ℝ) := by norm_num
  have c5 : ((0.5 : ℚ) : ℝ) = (0.5 : ℝ) := by norm_num
  have c8 : ((0.8 : ℚ) : ℝ) = (0.8 : ℝ) := by norm_num
  rw [c2, c5, c8]
  by_cases h2 : abs_h < 0.2 <;> by_cases h5 : abs_h < 0.5 <;>
    by_cases h8 : abs_h < 0.8 <;>
    simp [h2, h5, h8]

/-- Pooled proportion of updated_analysis.py line 31 and
new_analysis.py line 30. -/
def UpdatedAnalysis.pooled_p (p1 p2 : ℚ) (n1 n2 : ℕ) : ℚ :=
  (n1 * p1 + n2 * p2) / (n1 + n2)

/-- Pooled standard error of updated_analysis.py line 32 and
new_analysis.py line 31. -/
noncomputable def UpdatedAnalysis.pooled_se (p1 p2 : ℚ) (n1 n2 : ℕ) : ℝ :=
  Real.sqrt ((pooled_p p1 p2 n1 n2 * (1 - pooled_p p1 p2 n1 n2) *
    (1 / n1 + 1 / n2) : ℚ))

/-- Cohen h of all the analyze_proportion_comparison copies:
2 * (arcsin(sqrt(p1)) - arcsin(sqrt(p2))). -/
noncomputable def cohensH (p1 p2 : ℚ) : ℝ :=
  2 * (Real.arcsin (Real.sqrt (p1 : ℝ)) - Real.arcsin (Real.sqrt (p2 : ℝ)))

/-- analyze_proportion_comparison of updated_analysis.py (lines 7-64).
Proportions are exact rationals; the z statistic, p-values and Cohen h are
reals.  The chi-squared test is run on the table
[[p1*n1, (1-p1)*n1], [p2*n2, (1-p2)*n2]] with the default Yates
correction. -/
noncomputable def UpdatedAnalysis.analyze_proportion_comparison
    (p1 p2 : ℚ) (n1 n2 : ℕ) (study_name : String) : PropResult :=
  let pooledSe : ℝ := pooled_se p1 p2 n1 n2
  let z_stat : ℝ := (((p1 : ℝ)) - (p2 : ℝ)) / pooledSe
  let h : ℝ := cohensH p1 p2
  let chi2 : ℚ :=
    chi2Stat2x2 true (p1 * n1) ((1 - p1) * n1) (p2 * n2) ((1 - p2) * n2)
  { study := study_name
    group1_prop := (p1 : ℝ)
    group2_prop := (p2 : ℝ)
    difference := (p1 : ℝ) - (p2 : ℝ)
    z_statistic := z_stat
    p_value_z := 2 * (1 - normCdf |z_stat|)
    z_ci_lower := ((p1 : ℝ) - (p2 : ℝ)) - 1.96 * pooledSe
    z_ci_upper := ((p1 : ℝ) - (p2 : ℝ)) + 1.96 * pooledSe
    cohens_h := h
    effect_size := effectSizeLabel |h|
    chi_square := (chi2 : ℝ)
    p_value_chi2 := chi2Sf (chi2 : ℝ) }

/-- analyze_proportion_comparison of new_analysis.py (lines 6-69): the
same computation as updated_analysis.py, with the effect-size label
computed by the if/elif chain. -/
noncomputable def NewAnalysis.analyze_proportion_comparison
    (p1 p2 : ℚ) (n1 n2 : ℕ) (study_name : String) : PropResult :=
  let pooledSe : ℝ := UpdatedAnalysis.pooled_se p1 p2 n1 n2
  let z_stat : ℝ := (((p1 : ℝ)) - (p2 : ℝ)) / pooledSe
  let h : ℝ := cohensH p1 p2
  let chi2 : ℚ :=
    chi2Stat2x2 true (p1 * n1) ((1 - p1) * n1) (p2 * n2) ((1 - p2) * n2)
  { study := study_name
    group1_prop := (p1 : ℝ)
    group2_prop := (p2 : ℝ)
    difference := (p1 : ℝ) - (p2 : ℝ)
    z_statistic := z_stat
    p_value_z := 2 * (1 - normCdf |z_stat|)
    z_ci_lower := ((p1 : ℝ) - (p2 : ℝ)) - 1.96 * pooledSe
    z_ci_upper := ((p1 : ℝ) - (p2 : ℝ)) + 1.96 * pooledSe
    cohens_h := h
    effect_size := effectSizeLabel |h|
    chi_square := (chi2 : ℝ)
    p_value_chi2 := chi2Sf (chi2 : ℝ) }

/-- Pooled proportion of proportion_analysis.py line 20: computed from the
rounded integer counts rather than from the raw proportions. -/
def ProportionAnalysis.pooled_p (p1 p2 : ℚ) (n1 n2 : ℕ) : ℚ :=
  ((roundHalfEven (p1 * n1) : ℚ) + (roundHalfEven (p2 * n2) : ℚ)) / (n1 + n2)

/-- Pooled standard error of proportion_analysis.py line 21. -/
noncomputable def ProportionAnalysis.pooled_se (p1 p2 : ℚ) (n1 n2 : ℕ) : ℝ :=
  Real.sqrt ((pooled_p p1 p2 n1 n2 * (1 - pooled_p p1 p2 n1 n2) *
    (1 / n1 + 1 / n2) : ℚ))

/-- analyze_proportion_comparison of proportion_analysis.py (lines 8-53):
the proportions are first converted to rounded integer counts
count_i = int(round(p_i * n_i)); the pooled proportion and the chi-squared
table use those counts, and the chi-squared test is run with
correction=False. -/
noncomputable def ProportionAnalysis.analyze_proportion_comparison
    (p1 p2 : ℚ) (n1 n2 : ℕ) (study_name : String) : PropResult :=
  let count1 : ℤ := roundHalfEven (p1 * n1)
  let count2 : ℤ := roundHalfEven (p2 * n2)
  let fail1 : ℤ := n1 - count1
  let fail2 : ℤ := n2 - count2
  let pooledSe : ℝ := pooled_se p1 p2 n1 n2
  let z_stat : ℝ := (((p1 : ℝ)) - (p2 : ℝ)) / pooledSe
  let h : ℝ := cohensH p1 p2
  let chi2 : ℚ :=
    chi2Stat2x2 false (count1 : ℚ) (fail1 : ℚ) (count2 : ℚ) (fail2 : ℚ)
  { study := study_name
    group1_prop := (p1 : ℝ)
    group2_prop := (p2 : ℝ)
    difference := (p1 : ℝ) - (p2 : ℝ)
    z_statistic := z_stat
    p_value_z := 2 * (1 - normCdf |z_stat|)
    z_ci_lower := ((p1 : ℝ) - (p2 : ℝ)) - 1.96 * pooledSe
    z_ci_upper := ((p1 : ℝ) - (p2 : ℝ)) + 1.96 * pooledSe
    cohens_h := h
    effect_size := UpdatedAnalysis.effectSizeLabel |h|
    chi_square := (chi2 : ℝ)
    p_value_chi2 := chi2Sf (chi2 : ℝ) }

/-- C1 (amended): for proportions strictly between 0 and 1 and sample
sizes at least 1, the analyze_proportion_comparison copies of
new_analysis.py and updated_analysis.py return equal result
dictionaries.  (The proportion_analysis.py copy differs: see the
counterexample.) -/
theorem claim_C1_new_eq_updated (p1 p2 : ℚ) (n1 n2 : ℕ) (s : String)
    (h1 : 0 < p1) (h2 : p1 < 1) (h3 : 0 < p2) (h4 : p2 < 1)
    (h5 : 1 ≤ n1) (h6 : 1 ≤ n2) :
    NewAnalysis.analyze_proportion_comparison p1 p2 n1 n2 s =
      UpdatedAnalysis.analyze_proportion_comparison p1 p2 n1 n2 s := by
  unfold NewAnalysis.analyze_proportion_comparison
    UpdatedAnalysis.analyze_proportion_comparison
  simp only [effectSizeLabel_eq]

theorem claim_C1_new_eq_updated_witness :
    NewAnalysis.analyze_proportion_comparison (1/2) (1/4) 10 20 ("x") =
      UpdatedAnalysis.analyze_proportion_comparison (1/2) (1/4) 10 20 ("x") :=
  claim_C1_new_eq_updated (1/2) (1/4) 10 20 ("x") (by norm_num) (by norm_num)
    (by norm_num) (by norm_num) (by norm_num) (by norm_num)

/-- At p1 = 3/10, p2 = 3/5, n1 = n2 = 1, the pooled standard error of
updated_analysis.py is sqrt(99/200): the pooled proportion is 9/20. -/
theorem updatedPooledSeEval :
    UpdatedAnalysis.pooled_se (3/10) (3/5) 1 1 = Real.sqrt ((99 : ℝ)/200) := by
  unfold UpdatedAnalysis.pooled_se UpdatedAnalysis.pooled_p
  norm_num

/-- At p1 = 3/10, p2 = 3/5, n1 = n2 = 1, the pooled standard error of
proportion_analysis.py is sqrt(1/2): the counts round to 0 and 1, so the
pooled proportion is 1/2. -/
theorem propPooledSeEval :
    ProportionAnalysis.pooled_se (3/10) (3/5) 1 1 = Real.sqrt ((1 : ℝ)/2) := by
  unfold ProportionAnalysis.pooled_se ProportionAnalysis.pooled_p
  have hr1 : roundHalfEven ((3/10 : ℚ)) = 0 := by
    unfold roundHalfEven
    rw [show ⌊(3/10 : ℚ)⌋ = 0 from Int.floor_eq_iff.mpr (by norm_num)]
    norm_num
  have hr2 : roundHalfEven ((3/5 : ℚ)) = 1 := by
    unfold roundHalfEven
    rw [show ⌊(3/5 : ℚ)⌋ = 0 from Int.floor_eq_iff.mpr (by norm_num)]
    norm_num
  norm_num [hr1, hr2]

/-- C1 (counterexample): at p1 = 3/10, p2 = 3/5, n1 = n2 = 1 — proportions
strictly between 0 and 1 and sample sizes at least 1 — the
updated_analysis.py and proportion_analysis.py copies of
analyze_proportion_comparison return different result dictionaries: the
rounding of p*n to integer counts changes the pooled proportion from 9/20
to 1/2, so the z statistics differ. -/
theorem claim_C1_counterexample :
    UpdatedAnalysis.analyze_proportion_comparison (3/10) (3/5) 1 1 ("") ≠
      ProportionAnalysis.analyze_proportion_comparison (3/10) (3/5) 1 1 ("") := by
  intro hEq
  have hz := congrArg PropResult.z_statistic hEq
  simp only [UpdatedAnalysis.analyze_proportion_comparison,
    ProportionAnalysis.analyze_proportion_comparison] at hz
  rw [updatedPooledSeEval, propPooledSeEval] at hz
  have hnum : (((3:ℚ)/10 : ℚ) : ℝ) - (((3:ℚ)/5 : ℚ) : ℝ) = (-3 : ℝ)/10 := by
    norm_num
  rw [hnum] at hz
  have hpos1 : (0 : ℝ) < Real.sqrt (99/200) := Real.sqrt_pos.mpr (by norm_num)
  have hpos2 : (0 : ℝ) < Real.sqrt (1/2) := Real.sqrt_pos.mpr (by norm_num)
  rw [div_eq_div_iff (ne_of_gt hpos1) (ne_of_gt hpos2)] at hz
  have hsq : Real.sqrt (1/2) = Real.sqrt (99/200) :=
    mul_left_cancel₀ (show (-3 : ℝ)/10 ≠ 0 by norm_num) hz
  have hlt : Real.sqrt ((99:ℝ)/200) < Real.sqrt (1/2) :=
    Real.sqrt_lt_sqrt (by norm_num) (by norm_num)
  exact absurd hsq (ne_of_gt hlt)

/-- Claim C4: analyze_proportion_comparison is total under the
precondition that p1 and p2 are strictly between 0 and 1 and n1, n2 are at
least 1: the pooled proportion then lies strictly between 0 and 1, the
argument of the pooled-standard-error square root is strictly positive, so
pooled_se is strictly positive and the division producing z_stat is
well-defined, and the se_diff square-root argument is nonnegative; and the
precondition is necessary: at p1 = p2 = 0 with n1 = n2 = 1 the pooled
standard error is zero, so the z-statistic division divides by zero. -/
theorem claim_C4_pooled_se_safety :
    (∀ (p1 p2 : ℚ) (n1 n2 : ℕ), 0 < p1 → p1 < 1 → 0 < p2 → p2 < 1 →
      1 ≤ n1 → 1 ≤ n2 →
      0 < UpdatedAnalysis.pooled_p p1 p2 n1 n2 ∧
      UpdatedAnalysis.pooled_p p1 p2 n1 n2 < 1 ∧
      0 < UpdatedAnalysis.pooled_p p1 p2 n1 n2 *
          (1 - UpdatedAnalysis.pooled_p p1 p2 n1 n2) * (1 / n1 + 1 / n2) ∧
      0 < UpdatedAnalysis.pooled_se p1 p2 n1 n2 ∧
      0 ≤ p1 * (1 - p1) / n1 + p2 * (1 - p2) / n2) ∧
    UpdatedAnalysis.pooled_se 0 0 1 1 = 0 := by
  constructor
  · intro p1 p2 n1 n2 h1 h2 h3 h4 h5 h6
    have hn1 : (0 : ℚ) < n1 := by exact_mod_cast Nat.lt_of_lt_of_le Nat.zero_lt_one h5
    have hn2 : (0 : ℚ) < n2 := by exact_mod_cast Nat.lt_of_lt_of_le Nat.zero_lt_one h6
    have hp_pos : 0 < UpdatedAnalysis.pooled_p p1 p2 n1 n2 := by
      unfold UpdatedAnalysis.pooled_p
      exact div_pos (by nlinarith) (by linarith)
    have hp_lt : UpdatedAnalysis.pooled_p p1 p2 n1 n2 < 1 := by
      unfold UpdatedAnalysis.pooled_p
      rw [div_lt_one (by linarith)]
      nlinarith
    have harg : 0 < UpdatedAnalysis.pooled_p p1 p2 n1 n2 *
        (1 - UpdatedAnalysis.pooled_p p1 p2 n1 n2) * (1 / n1 + 1 / n2) := by
      have hinv : (0 : ℚ) < 1 / n1 + 1 / n2 := by positivity
      exact mul_pos (mul_pos hp_pos (by linarith)) hinv
    refine ⟨hp_pos, hp_lt, harg, ?_, ?_⟩
    · unfold UpdatedAnalysis.pooled_se
      apply Real.sqrt_pos.mpr
      exact_mod_cast harg
    · have hv1 : (0 : ℚ) ≤ p1 * (1 - p1) / n1 :=
        div_nonneg (mul_nonneg h1.le (by linarith)) hn1.le
      have hv2 : (0 : ℚ) ≤ p2 * (1 - p2) / n2 :=
        div_nonneg (mul_nonneg h3.le (by linarith)) hn2.le
      linarith
  · unfold UpdatedAnalysis.pooled_se UpdatedAnalysis.pooled_p
    norm_num

theorem claim_C4_witness :
    (0 < UpdatedAnalysis.pooled_p (1/2) (1/4) 3 5 ∧
      UpdatedAnalysis.pooled_p (1/2) (1/4) 3 5 < 1 ∧
      0 < UpdatedAnalysis.pooled_p (1/2) (1/4) 3 5 *
          (1 - UpdatedAnalysis.pooled_p (1/2) (1/4) 3 5) * (1 / 3 + 1 / 5) ∧
      0 < UpdatedAnalysis.pooled_se (1/2) (1/4) 3 5 ∧
      (0 : ℚ) ≤ (1/2) * (1 - 1/2) / 3 + (1/4) * (1 - 1/4) / 5) ∧
    UpdatedAnalysis.pooled_se 0 0 1 1 = 0 :=
  ⟨claim_C4_pooled_se_safety.1 (1/2) (1/4) 3 5 (by norm_num) (by norm_num)
      (by norm_num) (by norm_num) (by norm_num) (by norm_num),
    claim_C4_pooled_se_safety.2⟩

/-- Claim C6: the Cohen h effect size computed by
analyze_proportion_comparison (updated_analysis.py and new_analysis.py)
equals 2 * (arcsin(sqrt(p1)) - arcsin(sqrt(p2))) for every p1, p2 in
[0, 1], and is antisymmetric: swapping p1 and p2 negates it. -/
theorem claim_C6_cohens_h (p1 p2 : ℚ) (n1 n2 : ℕ) (s : String)
    (h1 : 0 ≤ p1) (h2 : p1 ≤ 1) (h3 : 0 ≤ p2) (h4 : p2 ≤ 1) :
    (UpdatedAnalysis.analyze_proportion_comparison p1 p2 n1 n2 s).cohens_h =
      2 * (Real.arcsin (Real.sqrt (p1 : ℝ)) - Real.arcsin (Real.sqrt (p2 : ℝ))) ∧
    (NewAnalysis.analyze_proportion_comparison p1 p2 n1 n2 s).cohens_h =
      2 * (Real.arcsin (Real.sqrt (p1 : ℝ)) - Real.arcsin (Real.sqrt (p2 : ℝ))) ∧
    (UpdatedAnalysis.analyze_proportion_comparison p2 p1 n1 n2 s).cohens_h =
      - (UpdatedAnalysis.analyze_proportion_comparison p1 p2 n1 n2 s).cohens_h := by
  refine ⟨rfl, rfl, ?_⟩
  show cohensH p2 p1 = - cohensH p1 p2
  unfold cohensH
  ring

theorem claim_C6_witness :
    (UpdatedAnalysis.analyze_proportion_comparison (1/2) (1/4) 7 9 ("y")).cohens_h =
      2 * (Real.arcsin (Real.sqrt ((1/2 : ℚ) : ℝ)) -
        Real.arcsin (Real.sqrt ((1/4 : ℚ) : ℝ))) ∧
    (NewAnalysis.analyze_proportion_comparison (1/2) (1/4) 7 9 ("y")).cohens_h =
      2 * (Real.arcsin (Real.sqrt ((1/2 : ℚ) : ℝ)) -
        Real.arcsin (Real.sqrt ((1/4 : ℚ) : ℝ))) ∧
    (UpdatedAnalysis.analyze_proportion_comparison (1/4) (1/2) 7 9 ("y")).cohens_h =
      - (UpdatedAnalysis.analyze_proportion_comparison (1/2) (1/4) 7 9 ("y")).cohens_h :=
  claim_C6_cohens_h (1/2) (1/4) 7 9 ("y") (by norm_num) (by norm_num)
    (by norm_num) (by norm_num)

/-- Claim C10: for proportions strictly between 0 and 1 and any sample
size n at least 1, swapping the two proportions in updated_analysis.py
analyze_proportion_comparison negates the difference, the z statistic and
Cohen h, negates and swaps the confidence-interval endpoints, and leaves
p_value_z, chi_square, p_value_chi2 and the effect-size label
unchanged. -/
theorem claim_C10_swap_symmetry (p1 p2 : ℚ) (n : ℕ) (s : String)
    (h1 : 0 < p1) (h2 : p1 < 1) (h3 : 0 < p2) (h4 : p2 < 1) (h5 : 1 ≤ n) :
    (UpdatedAnalysis.analyze_proportion_comparison p2 p1 n n s).difference =
      - (UpdatedAnalysis.analyze_proportion_comparison p1 p2 n n s).difference ∧
    (UpdatedAnalysis.analyze_proportion_comparison p2 p1 n n s).z_statistic =
      - (UpdatedAnalysis.analyze_proportion_comparison p1 p2 n n s).z_statistic ∧
    (UpdatedAnalysis.analyze_proportion_comparison p2 p1 n n s).cohens_h =
      - (UpdatedAnalysis.analyze_proportion_comparison p1 p2 n n s).cohens_h ∧
    (UpdatedAnalysis.analyze_proportion_comparison p2 p1 n n s).z_ci_lower =
      - (UpdatedAnalysis.analyze_proportion_comparison p1 p2 n n s).z_ci_upper ∧
    (UpdatedAnalysis.analyze_proportion_comparison p2 p1 n n s).z_ci_upper =
      - (UpdatedAnalysis.analyze_proportion_comparison p1 p2 n n s).z_ci_lower ∧
    (UpdatedAnalysis.analyze_proportion_comparison p2 p1 n n s).p_value_z =
      (UpdatedAnalysis.analyze_proportion_comparison p1 p2 n n s).p_value_z ∧
    (UpdatedAnalysis.analyze_proportion_comparison p2 p1 n n s).chi_square =
      (UpdatedAnalysis.analyze_proportion_comparison p1 p2 n n s).chi_square ∧
    (UpdatedAnalysis.analyze_proportion_comparison p2 p1 n n s).p_value_chi2 =
      (UpdatedAnalysis.analyze_proportion_comparison p1 p2 n n s).p_value_chi2 ∧
    (UpdatedAnalysis.analyze_proportion_comparison p2 p1 n n s).effect_size =
      (UpdatedAnalysis.analyze_proportion_comparison p1 p2 n n s).effect_size := by
  have hpool : UpdatedAnalysis.pooled_p p2 p1 n n = UpdatedAnalysis.pooled_p p1 p2 n n := by
    unfold UpdatedAnalysis.pooled_p
    ring
  have hse : UpdatedAnalysis.pooled_se p2 p1 n n = UpdatedAnalysis.pooled_se p1 p2 n n := by
    unfold UpdatedAnalysis.pooled_se
    rw [hpool]
  have hz : ((p2 : ℝ) - (p1 : ℝ)) / UpdatedAnalysis.pooled_se p2 p1 n n =
      - (((p1 : ℝ) - (p2 : ℝ)) / UpdatedAnalysis.pooled_se p1 p2 n n) := by
    rw [hse]
    ring
  have hh : cohensH p2 p1 = - cohensH p1 p2 := by
    unfold cohensH
    ring
  have hchi : chi2Stat2x2 true (p2 * n) ((1 - p2) * n) (p1 * n) ((1 - p1) * n) =
      chi2Stat2x2 true (p1 * n) ((1 - p1) * n) (p2 * n) ((1 - p2) * n) :=
    chi2Stat2x2_swap true (p1 * n) ((1 - p1) * n) (p2 * n) ((1 - p2) * n)
  unfold UpdatedAnalysis.analyze_proportion_comparison
  dsimp only
  refine ⟨by ring, hz, hh, by rw [hse]; ring, by rw [hse]; ring, ?_, ?_, ?_, ?_⟩
  · rw [hz, abs_neg]
  · exact_mod_cast hchi
  · rw [hchi]
  · rw [hh, abs_neg]

theorem claim_C10_witness :
    (UpdatedAnalysis.analyze_proportion_comparison (2/5) (1/5) 50 50 ("w")).difference =
      - (UpdatedAnalysis.analyze_proportion_comparison (1/5) (2/5) 50 50 ("w")).difference :=
  (claim_C10_swap_symmetry (1/5) (2/5) 50 ("w") (by norm_num) (by norm_num)
    (by norm_num) (by norm_num) (by norm_num)).1

/-- rank_biserial of stats_analysis.py (lines 11-18): counts of strictly
positive and strictly negative pairwise differences; returns 0 when there
are none, else (positive - negative) / (positive + negative). -/
def StatsAnalysis.rank_biserial (x y : List ℚ) : ℚ :=
  let diff := List.zipWith (fun a b => a - b) x y
  let positive_ranks : ℕ := (diff.filter (fun d => decide (0 < d))).length
  let negative_ranks : ℕ := (diff.filter (fun d => decide (d < 0))).length
  if positive_ranks + negative_ranks = 0 then 0
  else ((positive_ranks : ℚ) - (negative_ranks : ℚ)) /
    ((positive_ranks : ℚ) + (negative_ranks : ℚ))

/-- Number of index positions where the first list strictly exceeds the
second (up to the common length), written from the words of claim C7. -/
def countGt (x y : List ℚ) : ℕ :=
  ((List.zip x y).filter (fun p => decide (p.2 < p.1))).length

theorem filterPosLen (x y : List ℚ) :
    ((List.zipWith (fun a b => a - b) x y).filter
      (fun d => decide (0 < d))).length = countGt x y := by
  induction x generalizing y with
  | nil => simp [countGt]
  | cons a xs ih =>
    cases y with
    | nil => simp [countGt]
    | cons b ys =>
      unfold countGt
      rw [List.zipWith_cons_cons, List.zip_cons_cons, List.filter_cons,
        List.filter_cons]
      have hd : (decide ((0 : ℚ) < a - b)) = decide (((a, b) : ℚ × ℚ).2 < (a, b).1) := by
        simp [sub_pos]
      rw [hd]
      cases hc : decide (((a, b) : ℚ × ℚ).2 < (a, b).1) with
      | true => simp [ih, countGt]
      | false => simp [ih, countGt]

theorem filterNegLen (x y : List ℚ) :
    ((List.zipWith (fun a b => a - b) x y).filter
      (fun d => decide (d < 0))).length = countGt y x := by
  induction x generalizing y with
  | nil => simp [countGt]
  | cons a xs ih =>
    cases y with
    | nil => simp [countGt]
    | cons b ys =>
      unfold countGt
      rw [List.zipWith_cons_cons, List.zip_cons_cons, List.filter_cons,
        List.filter_cons]
      have hd : (decide (a - b < (0 : ℚ))) = decide (((b, a) : ℚ × ℚ).2 < (b, a).1) := by
        simp [sub_neg]
      rw [hd]
      cases hc : decide (((b, a) : ℚ × ℚ).2 < (b, a).1) with
      | true => simp [ih, countGt]
      | false => simp [ih, countGt]

/-- Claim C7: rank_biserial(x, y) equals (P - N) / (P + N) where P counts
the indices with x_i > y_i and N those with x_i < y_i, returns exactly 0
when P + N = 0, and its value always lies in [-1, 1]. -/
theorem claim_C7_rank_biserial (x y : List ℚ) :
    (StatsAnalysis.rank_biserial x y =
      if countGt x y + countGt y x = 0 then 0
      else ((countGt x y : ℚ) - (countGt y x : ℚ)) /
        ((countGt x y : ℚ) + (countGt y x : ℚ))) ∧
    -1 ≤ StatsAnalysis.rank_biserial x y ∧
    StatsAnalysis.rank_biserial x y ≤ 1 := by
  unfold StatsAnalysis.rank_biserial
  dsimp only
  rw [filterPosLen, filterNegLen]
  refine ⟨rfl, ?_, ?_⟩ <;>
    by_cases h : countGt x y + countGt y x = 0 <;> simp only [h, if_true, if_false]
  · norm_num
  · have hpos : (0 : ℚ) < (countGt x y : ℚ) + (countGt y x : ℚ) := by
      have : 0 < countGt x y + countGt y x := Nat.pos_of_ne_zero h
      exact_mod_cast this
    rw [le_div_iff₀ hpos]
    have hQ : (0 : ℚ) ≤ (countGt x y : ℚ) := Nat.cast_nonneg _
    linarith
  · norm_num
  · have hpos : (0 : ℚ) < (countGt x y : ℚ) + (countGt y x : ℚ) := by
      have : 0 < countGt x y + countGt y x := Nat.pos_of_ne_zero h
      exact_mod_cast this
    rw [div_le_one hpos]
    have hR : (0 : ℚ) ≤ (countGt y x : ℚ) := Nat.cast_nonneg _
    linarith

/-- Arithmetic mean of a list of rationals, modelling numpy.mean. -/
def npMean (l : List ℚ) : ℚ := l.sum / l.length

/-- Sample variance with ddof=1 of a list of rationals, modelling
numpy.var(x, ddof=1): the sum of squared deviations from the mean divided
by (length - 1). -/
def npVarDdof1 (l : List ℚ) : ℚ :=
  ((l.map (fun v => (v - npMean l) ^ 2)).sum) / ((l.length : ℚ) - 1)

/-- cohens_d_ind of compare_deception.py (lines 23-28): difference of
means over the pooled ddof=1 standard deviation. -/
noncomputable def CompareDeception.cohens_d_ind (x y : List ℚ) : ℝ :=
  let nx : ℚ := x.length
  let ny : ℚ := y.length
  let pooled_std : ℝ := Real.sqrt
    ((((nx - 1) * npVarDdof1 x + (ny - 1) * npVarDdof1 y) / (nx + ny - 2) : ℚ))
  ((npMean x : ℝ) - (npMean y : ℝ)) / pooled_std

/-- Sample mean written from the words of claim C8. -/
def specMean (l : List ℚ) : ℚ := l.sum / l.length

/-- Sample (ddof=1) variance written from the words of claim C8. -/
def specVar (l : List ℚ) : ℚ :=
  ((l.map (fun v => (v - specMean l) ^ 2)).sum) / ((l.length : ℚ) - 1)

/-- Claim C8: for lists x, y each of length at least 2 with nonzero pooled
variance, cohens_d_ind(x, y) equals the difference of the sample means
divided by the pooled standard deviation
sqrt(((nx-1)*var(x) + (ny-1)*var(y)) / (nx + ny - 2)) with sample (ddof=1)
variances; moreover the pooled standard deviation is then strictly
positive, so the division is well-defined. -/
theorem claim_C8_cohens_d_ind (x y : List ℚ)
    (hx : 2 ≤ x.length) (hy : 2 ≤ y.length)
    (hpv : ((x.length : ℚ) - 1) * specVar x + ((y.length : ℚ) - 1) * specVar y ≠ 0) :
    CompareDeception.cohens_d_ind x y =
      ((specMean x : ℝ) - (specMean y : ℝ)) /
        Real.sqrt (((((x.length : ℚ) - 1) * specVar x +
          ((y.length : ℚ) - 1) * specVar y) /
            ((x.length : ℚ) + (y.length : ℚ) - 2) : ℚ)) ∧
    0 < Real.sqrt (((((x.length : ℚ) - 1) * specVar x +
      ((y.length : ℚ) - 1) * specVar y) /
        ((x.length : ℚ) + (y.length : ℚ) - 2) : ℚ)) := by
  have hxq : (2 : ℚ) ≤ (x.length : ℚ) := by exact_mod_cast hx
  have hyq : (2 : ℚ) ≤ (y.length : ℚ) := by exact_mod_cast hy
  have hvx : 0 ≤ specVar x := by
    unfold specVar
    apply div_nonneg
    · apply List.sum_nonneg
      intro v hv
      obtain ⟨w, hw, rfl⟩ := List.mem_map.mp hv
      positivity
    · linarith
  have hvy : 0 ≤ specVar y := by
    unfold specVar
    apply div_nonneg
    · apply List.sum_nonneg
      intro v hv
      obtain ⟨w, hw, rfl⟩ := List.mem_map.mp hv
      positivity
    · linarith
  have hsum : 0 ≤ ((x.length : ℚ) - 1) * specVar x + ((y.length : ℚ) - 1) * specVar y := by
    have h1 : 0 ≤ ((x.length : ℚ) - 1) * specVar x :=
      mul_nonneg (by linarith) hvx
    have h2 : 0 ≤ ((y.length : ℚ) - 1) * specVar y :=
      mul_nonneg (by linarith) hvy
    linarith
  have hsumpos : 0 < ((x.length : ℚ) - 1) * specVar x + ((y.length : ℚ) - 1) * specVar y :=
    lt_of_le_of_ne hsum (Ne.symm hpv)
  have hargpos : 0 < (((x.length : ℚ) - 1) * specVar x +
      ((y.length : ℚ) - 1) * specVar y) / ((x.length : ℚ) + (y.length : ℚ) - 2) :=
    div_pos hsumpos (by linarith)
  constructor
  · rfl
  · apply Real.sqrt_pos.mpr
    exact_mod_cast hargpos

theorem claim_C8_witness :
    CompareDeception.cohens_d_ind [0, 2] [1, 3] =
      ((specMean [0, 2] : ℝ) - (specMean [1, 3] : ℝ)) /
        Real.sqrt ((((([0, 2] : List ℚ).length : ℚ) - 1) * specVar [0, 2] +
          ((([1, 3] : List ℚ).length : ℚ) - 1) * specVar [1, 3]) /
            ((([0, 2] : List ℚ).length : ℚ) + (([1, 3] : List ℚ).length : ℚ) - 2) : ℚ) ∧
    0 < Real.sqrt ((((([0, 2] : List ℚ).length : ℚ) - 1) * specVar [0, 2] +
      ((([1, 3] : List ℚ).length : ℚ) - 1) * specVar [1, 3]) /
        ((([0, 2] : List ℚ).length : ℚ) + (([1, 3] : List ℚ).length : ℚ) - 2) : ℚ) :=
  claim_C8_cohens_d_ind [0, 2] [1, 3] (by norm_num) (by norm_num)
    (by norm_num [specVar, specMean])

/-- Bonferroni multiple-comparison correction, modelling
statsmodels.stats.multitest.multipletests with method bonferroni: each
raw p-value is compared against alpha divided by the number of tests for
the reject decision, and the corrected p-values are the raw p-values
multiplied by the number of tests, clipped at 1.  Returns the pair
(reject flags, corrected p-values). -/
def multipletests_bonferroni (alpha : ℚ) (pvals : List ℚ) :
    List Bool × List ℚ :=
  (pvals.map (fun p => decide (p ≤ alpha / pvals.length)),
   pvals.map (fun p => min (p * pvals.length) 1))

/-- Claim C2: for the three Wilcoxon p-values, the Bonferroni correction
at the default alpha = 0.05 yields corrected p-values min(1, 3*p), and
flags a comparison significant exactly when its raw p-value is at most
0.05/3. -/
theorem claim_C2_bonferroni (p1 p2 p3 : ℚ) :
    multipletests_bonferroni 0.05 [p1, p2, p3] =
      ([decide (p1 ≤ 0.05/3), decide (p2 ≤ 0.05/3), decide (p3 ≤ 0.05/3)],
       [min 1 (3 * p1), min 1 (3 * p2), min 1 (3 * p3)]) := by
  unfold multipletests_bonferroni
  norm_num [min_comm, mul_comm]

/-- A string of k zero digits. -/
def zeros : ℕ → String
  | 0 => ""
  | n + 1 => "0" ++ zeros n

/-- Left-pad a string with zero digits to length k. -/
def padLeft (k : ℕ) (s : String) : String := zeros (k - s.length) ++ s

/-- Fixed-point rendering of a rational with k digits after the point,
modelling the Python format specifier .kf (rounding ties to even). -/
def fmtFixed (k : ℕ) (q : ℚ) : String :=
  let n : ℤ := roundHalfEven (q * (10 : ℚ) ^ k)
  let m : ℕ := n.natAbs
  (if n < 0 then "-" else "") ++ toString (m / 10 ^ k) ++ "." ++
    padLeft k (toString (m % 10 ^ k))

/-- format_p_value of updated_analysis.py (lines 97-105), also
proportion_analysis.py (lines 86-94): threshold-bucketed APA rendering of
a p-value. -/
def UpdatedAnalysis.format_p_value (p : ℚ) : String :=
  if p < 0.001 then "p < .001"
  else if p < 0.01 then "p < .01"
  else if p < 0.05 then "p < .05"
  else "p = " ++ fmtFixed 3 p

/-- The numeric fields of a result dictionary that create_apa_table reads.
The analysis scripts pass float values; every float is an exact rational,
so the fields are modelled as rationals. -/
structure ApaInput where
  study : String
  group1_prop : ℚ
  group2_prop : ℚ
  difference : ℚ
  z_ci_lower : ℚ
  z_ci_upper : ℚ
  z_statistic : ℚ
  p_value_z : ℚ
  cohens_h : ℚ
  effect_size : String

/-- One row of the APA-style table of updated_analysis.py
(lines 110-120). -/
structure ApaRow where
  study : String
  reasoningPct : String
  nonReasoningPct : String
  differencePct : String
  ciDiff : String
  zTest : String
  pValue : String
  cohensHCell : String
  effectSize : String

/-- create_apa_table of updated_analysis.py (lines 83-123): one formatted
row is appended per input result, in input order. -/
def UpdatedAnalysis.create_apa_table (results_list : List ApaInput) : List ApaRow :=
  results_list.map (fun r =>
    { study := r.study
      reasoningPct := fmtFixed 1 (r.group1_prop * 100)
      nonReasoningPct := fmtFixed 1 (r.group2_prop * 100)
      differencePct := fmtFixed 1 (r.difference * 100)
      ciDiff := "[" ++ fmtFixed 1 (r.z_ci_lower * 100) ++ ", " ++
        fmtFixed 1 (r.z_ci_upper * 100) ++ "]"
      zTest := "z = " ++ fmtFixed 2 r.z_statistic
      pValue := format_p_value r.p_value_z
      cohensHCell := fmtFixed 2 r.cohens_h
      effectSize := r.effect_size })

/-- The p-value rendering cases as worded by claim C9. -/
def formatPSpec (p : ℚ) : String :=
  if p < 0.001 then "p < .001"
  else if 0.001 ≤ p ∧ p < 0.01 then "p < .01"
  else if 0.01 ≤ p ∧ p < 0.05 then "p < .05"
  else "p = " ++ fmtFixed 3 p

/-- The source formatter agrees with the claim-worded case split. -/
theorem format_p_value_eq_spec (p : ℚ) :
    UpdatedAnalysis.format_p_value p = formatPSpec p := by
  unfold UpdatedAnalysis.format_p_value formatPSpec
  by_cases h1 : p < 0.001
  · rw [if_pos h1, if_pos h1]
  · by_cases h2 : p < 0.01
    · rw [if_neg h1, if_neg h1, if_pos h2, if_pos (And.intro (not_lt.mp h1) h2)]
    · by_cases h3 : p < 0.05
      · have hn2 : ¬(0.001 ≤ p ∧ p < 0.01) := fun hc => h2 hc.2
        rw [if_neg h1, if_neg h1, if_neg h2, if_neg hn2, if_pos h3,
          if_pos (And.intro (not_lt.mp h2) h3)]
      · have hn2 : ¬(0.001 ≤ p ∧ p < 0.01) := fun hc => h2 hc.2
        have hn3 : ¬(0.01 ≤ p ∧ p < 0.05) := fun hc => h3 hc.2
        rw [if_neg h1, if_neg h1, if_neg h2, if_neg hn2, if_neg h3, if_neg hn3]

/-- Claim C9: the APA table of create_apa_table has exactly one row per
input result, in input order (the i-th row is built from the i-th result,
witnessed here by the study column), and each p-value cell is rendered as
p < .001 when p < 0.001, p < .01 when 0.001 <= p < 0.01, p < .05 when
0.01 <= p < 0.05, and as an equality to three decimal places otherwise. -/
theorem claim_C9_apa_table (results_list : List ApaInput) :
    (UpdatedAnalysis.create_apa_table results_list).length = results_list.length ∧
    (∀ (i : ℕ) (h1 : i < (UpdatedAnalysis.create_apa_table results_list).length)
      (h2 : i < results_list.length),
      ((UpdatedAnalysis.create_apa_table results_list).get ⟨i, h1⟩).study =
        (results_list.get ⟨i, h2⟩).study ∧
      ((UpdatedAnalysis.create_apa_table results_list).get ⟨i, h1⟩).pValue =
        formatPSpec ((results_list.get ⟨i, h2⟩).p_value_z)) := by
  constructor
  · unfold UpdatedAnalysis.create_apa_table
    exact List.length_map _ _
  · intro i h1 h2
    unfold UpdatedAnalysis.create_apa_table
    rw [List.get_map]
    exact ⟨rfl, format_p_value_eq_spec _⟩

/-- A concrete result record used to instantiate claim C9. -/
def apaSample : ApaInput :=
  { study := "S1", group1_prop := 1/2, group2_prop := 1/4,
    difference := 1/4, z_ci_lower := 0, z_ci_upper := 1/2,
    z_statistic := 2, p_value_z := 3/100, cohens_h := 1/2,
    effect_size := "Small" }

theorem claim_C9_witness :
    (UpdatedAnalysis.create_apa_table [apaSample]).length =
      ([apaSample] : List ApaInput).length ∧
    (((UpdatedAnalysis.create_apa_table [apaSample]).get
        ⟨0, by simp [UpdatedAnalysis.create_apa_table]⟩).study =
      (([apaSample] : List ApaInput).get ⟨0, by simp⟩).study ∧
     ((UpdatedAnalysis.create_apa_table [apaSample]).get
        ⟨0, by simp [UpdatedAnalysis.create_apa_table]⟩).pValue =
      formatPSpec ((([apaSample] : List ApaInput).get ⟨0, by simp⟩).p_value_z)) :=
  ⟨(claim_C9_apa_table [apaSample]).1,
   (claim_C9_apa_table [apaSample]).2 0
     (by simp [UpdatedAnalysis.create_apa_table]) (by simp)⟩

/-- One row of the metrics CSV read by proportion_analysis.py:
study (none models an empty/NaN cell), firm, model, capability, and the
two metric columns. -/
structure CsvRow where
  study : Option String
  firm : String
  model : String
  capability : String
  overall_accuracy : ℚ
  truth_bias : ℚ
deriving DecidableEq

/-- Forward fill of the study column, modelling
df.study.fillna(method=ffill) at proportion_analysis.py line 152: an
empty cell takes the last non-empty value above it; leading empty cells
stay empty. -/
def ffillFrom : Option String → List CsvRow → List CsvRow
  | _, [] => []
  | last, r :: rest =>
    match r.study with
    | some s => r :: ffillFrom (some s) rest
    | none => { r with study := last } :: ffillFrom last rest

/-- df.study forward fill applied to a whole row list. -/
def ffillStudy (rows : List CsvRow) : List CsvRow := ffillFrom none rows

/-- First-occurrence deduplication with an accumulator of already seen
values, modelling pandas Series.unique which preserves order of first
appearance. -/
def uniquesAux {α : Type} [DecidableEq α] (seen : List α) : List α → List α
  | [] => []
  | a :: rest =>
    if a ∈ seen then uniquesAux seen rest
    else a :: uniquesAux (a :: seen) rest

/-- Values of a list in order of first appearance, modelling
pandas Series.unique. -/
def uniques {α : Type} [DecidableEq α] (l : List α) : List α := uniquesAux [] l

/-- Equality test of a study cell against a study value from unique(),
modelling the pandas comparison df.study == study: a NaN cell compares
unequal to everything, including NaN itself. -/
def studyMatches (v target : Option String) : Bool :=
  match v, target with
  | some a, some b => a == b
  | _, _ => false

/-- Rows of one (study, firm) group, modelling
df[(df.study == study) & (df.firm == firm)] at
proportion_analysis.py line 167. -/
def studyFirmRows (df : List CsvRow) (study : Option String) (firm : String) :
    List CsvRow :=
  df.filter (fun r => studyMatches r.study study && r.firm == firm)

/-- Display form of a study cell in the constructed study_name string
(Python prints NaN as nan). -/
def studyDisplay (s : Option String) : String :=
  match s with
  | some v => v
  | none => "nan"

/-- The metric loop [overall_accuracy, truth_bias] of
proportion_analysis.py line 182, as (column name, column getter) pairs. -/
def metricGetters : List (String × (CsvRow → ℚ)) :=
  [("overall_accuracy", fun r => r.overall_accuracy),
   ("truth_bias", fun r => r.truth_bias)]

/-- Body of the per-(study, firm) iteration of
compare_reasoning_non_reasoning_by_firm (proportion_analysis.py
lines 167-199): if the group has at least 2 rows and contains both a
reasoning and a non-reasoning row, one comparison per metric is appended,
group 1 being the first reasoning row's value; otherwise nothing. -/
noncomputable def pairResults (n1 n2 : ℕ) (df : List CsvRow)
    (study : Option String) (firm : String) : List PropResult :=
  let sub := studyFirmRows df study firm
  if 2 ≤ sub.length then
    let reasoning_row := sub.filter (fun r => r.capability == "reasoning")
    let non_reasoning_row := sub.filter (fun r => r.capability == "non-reasoning")
    match reasoning_row.head?, non_reasoning_row.head? with
    | some rr, some nr =>
      metricGetters.map (fun mg =>
        ProportionAnalysis.analyze_proportion_comparison (mg.2 rr) (mg.2 nr)
          n1 n2
          (studyDisplay study ++ ": " ++ firm ++ " (" ++ rr.model ++ " vs " ++
            nr.model ++ ") - " ++ mg.1))
    | _, _ => []
  else []

/-- compare_reasoning_non_reasoning_by_firm of proportion_analysis.py
(lines 118-202).  File access is modelled by a map from paths to the
optional parsed row list: none models a missing file, in which case the
function prints an error and returns the empty list (line 139).
Otherwise the study column is forward-filled and every (study, firm) pair
of unique values is visited in order, appending the group's pairResults. -/
noncomputable def ProportionAnalysis.compare_reasoning_non_reasoning_by_firm
    (readCsv : String → Option (List CsvRow)) (csv_path : String)
    (n1 n2 : ℕ) : List PropResult :=
  match readCsv csv_path with
  | none => []
  | some rows =>
    let df := ffillStudy rows
    (uniques (df.map (fun r => r.study))).bind (fun study =>
      (uniques (df.map (fun r => r.firm))).bind (fun firm =>
        pairResults n1 n2 df study firm))

/-- Two pointwise-exclusive filters of one list together keep at most its
length. -/
theorem filter_disjoint_length_le {α : Type} (p q : α → Bool)
    (h : ∀ a, ¬(p a = true ∧ q a = true)) (l : List α) :
    (l.filter p).length + (l.filter q).length ≤ l.length := by
  induction l with
  | nil => simp
  | cons a t ih =>
    rw [List.filter_cons, List.filter_cons]
    by_cases hp : p a = true
    · have hq : ¬ q a = true := fun hq => h a ⟨hp, hq⟩
      simp [hp, hq]
      omega
    · by_cases hq : q a = true <;> simp [hp, hq] <;> omega

/-- Claim C3: for every (study, firm) pair, if the group's rows contain at
least one reasoning row and at least one non-reasoning row, then exactly
two comparison results are appended — overall_accuracy first, then
truth_bias — built from the first row of each capability with the
reasoning value as group 1; a pair missing either capability contributes
no results; and on a successfully read file the routine is exactly the
concatenation of these per-(study, firm) contributions over the unique
study and firm values of the forward-filled dataframe, in order. -/
theorem claim_C3_group_comparisons (n1 n2 : ℕ) (df : List CsvRow)
    (study : Option String) (firm : String) :
    (∀ rr nr,
      ((studyFirmRows df study firm).filter
        (fun r => r.capability == "reasoning")).head? = some rr →
      ((studyFirmRows df study firm).filter
        (fun r => r.capability == "non-reasoning")).head? = some nr →
      pairResults n1 n2 df study firm =
        [ProportionAnalysis.analyze_proportion_comparison
            rr.overall_accuracy nr.overall_accuracy n1 n2
            (studyDisplay study ++ ": " ++ firm ++ " (" ++ rr.model ++
              " vs " ++ nr.model ++ ") - " ++ "overall_accuracy"),
         ProportionAnalysis.analyze_proportion_comparison
            rr.truth_bias nr.truth_bias n1 n2
            (studyDisplay study ++ ": " ++ firm ++ " (" ++ rr.model ++
              " vs " ++ nr.model ++ ") - " ++ "truth_bias")]) ∧
    ((((studyFirmRows df study firm).filter
        (fun r => r.capability == "reasoning")) = [] ∨
      ((studyFirmRows df study firm).filter
        (fun r => r.capability == "non-reasoning")) = []) →
      pairResults n1 n2 df study firm = []) ∧
    (∀ (readCsv : String → Option (List CsvRow)) (path : String)
        (rows : List CsvRow), readCsv path = some rows →
      ProportionAnalysis.compare_reasoning_non_reasoning_by_firm
          readCsv path n1 n2 =
        (uniques ((ffillStudy rows).map (fun r => r.study))).bind (fun st =>
          (uniques ((ffillStudy rows).map (fun r => r.firm))).bind (fun f =>
            pairResults n1 n2 (ffillStudy rows) st f))) := by
  refine ⟨?_, ?_, ?_⟩
  · intro rr nr hr hnr
    have hdisj : ∀ r : CsvRow,
        ¬((r.capability == "reasoning") = true ∧
          (r.capability == "non-reasoning") = true) := by
      intro r ⟨ha, hb⟩
      have ha' : r.capability = "reasoning" := eq_of_beq ha
      have hb' : r.capability = "non-reasoning" := eq_of_beq hb
      rw [ha'] at hb'
      exact absurd hb' (by decide)
    have hlen := filter_disjoint_length_le
      (fun r => r.capability == "reasoning")
      (fun r => r.capability == "non-reasoning") hdisj
      (studyFirmRows df study firm)
    have hr1 : 1 ≤ ((studyFirmRows df study firm).filter
        (fun r => r.capability == "reasoning")).length := by
      cases hfe : (studyFirmRows df study firm).filter
          (fun r => r.capability == "reasoning") with
      | nil => rw [hfe] at hr; simp at hr
      | cons x xs => simp [hfe]
    have hn1 : 1 ≤ ((studyFirmRows df study firm).filter
        (fun r => r.capability == "non-reasoning")).length := by
      cases hfe : (studyFirmRows df study firm).filter
          (fun r => r.capability == "non-reasoning") with
      | nil => rw [hfe] at hnr; simp at hnr
      | cons x xs => simp [hfe]
    have hsub : 2 ≤ (studyFirmRows df study firm).length := by omega
    unfold pairResults
    dsimp only
    rw [if_pos hsub, hr, hnr]
    simp [metricGetters]
  · intro h
    unfold pairResults
    dsimp only
    by_cases hsub : 2 ≤ (studyFirmRows df study firm).length
    · rw [if_pos hsub]
      cases h with
      | inl hl =>
        rw [hl]
        rfl
      | inr hrr =>
        rw [hrr]
        cases ((studyFirmRows df study firm).filter
            (fun r => r.capability == "reasoning")).head? <;> rfl
    · rw [if_neg hsub]
  · intro readCsv path rows h
    unfold ProportionAnalysis.compare_reasoning_non_reasoning_by_firm
    rw [h]

/-- A sample reasoning row used to instantiate claim C3. -/
def csvRow1 : CsvRow :=
  { study := some ("s1"), firm := "A", model := "m-r",
    capability := "reasoning", overall_accuracy := 67/100,
    truth_bias := 57/100 }

/-- A sample non-reasoning row used to instantiate claim C3. -/
def csvRow2 : CsvRow :=
  { study := some ("s1"), firm := "A", model := "m-n",
    capability := "non-reasoning", overall_accuracy := 54/100,
    truth_bias := 94/100 }

/-- A sample dataframe used to instantiate claim C3. -/
def csvDf : List CsvRow := [csvRow1, csvRow2]

theorem claim_C3_witness :
    pairResults 200 200 csvDf (some ("s1")) ("A") =
      [ProportionAnalysis.analyze_proportion_comparison
          csvRow1.overall_accuracy csvRow2.overall_accuracy 200 200
          (studyDisplay (some ("s1")) ++ ": " ++ "A" ++ " (" ++
            csvRow1.model ++ " vs " ++ csvRow2.model ++ ") - " ++
            "overall_accuracy"),
       ProportionAnalysis.analyze_proportion_comparison
          csvRow1.truth_bias csvRow2.truth_bias 200 200
          (studyDisplay (some ("s1")) ++ ": " ++ "A" ++ " (" ++
            csvRow1.model ++ " vs " ++ csvRow2.model ++ ") - " ++
            "truth_bias")] :=
  (claim_C3_group_comparisons 200 200 csvDf (some ("s1")) ("A")).1
    csvRow1 csvRow2 (by rfl) (by rfl)

/-- Claim C5: if the file at csv_path does not exist,
compare_reasoning_non_reasoning_by_firm returns the empty list (and, being
a total function of the modelled file system, raises no exception). -/
theorem claim_C5_missing_file (readCsv : String → Option (List CsvRow))
    (csv_path : String) (n1 n2 : ℕ) (h : readCsv csv_path = none) :
    ProportionAnalysis.compare_reasoning_non_reasoning_by_firm
      readCsv csv_path n1 n2 = [] := by
  unfold ProportionAnalysis.compare_reasoning_non_reasoning_by_firm
  rw [h]

theorem claim_C5_witness :
    ProportionAnalysis.compare_reasoning_non_reasoning_by_firm
      (fun _ => none) ("missing.csv") 200 200 = [] :=
  claim_C5_missing_file (fun _ => none) ("missing.csv") 200 200 rfl
